import Mathlib

/-!
Verification of the vapor-compression chiller module
(`cea/technologies/chiller_vapor_compression.py`).

The module has two stateless functions:
- `calc_VCC`: operating point (electric power draw, condenser heat rejection)
  from mass flow and supply/return temperatures via an empirical COP
  correlation;
- `calc_Cinv_VCC`: annualized investment and fixed O&M cost from a peak
  capacity and a capacity-bracketed cost table.

Real/float arithmetic of the source is embedded as exact rational arithmetic
(`ℚ`) where the source is closed under field operations, and as `ℝ` for the
transcendental cost curve (`x ** c`, `log x`).
-/

/-- Modelled from the spec: the fixed specific heat capacity of water
`c_p ≈ 4187 J/kgK` (the constant `HEAT_CAPACITY_OF_WATER_JPERKGK` is imported
from `cea.constants`, which is outside the sources at hand; the spec's §8
example fixes the value). -/
def HEAT_CAPACITY_OF_WATER_JPERKGK : ℚ := 4187

/-- Modelled from the spec: the fixed condenser-water inlet temperature
(`VCC_T_COOL_IN`, imported from `cea.optimization.constants`, outside the
sources at hand): a nominal cooling-tower supply temperature, taken as
30 °C = 303 K. The claims settled below do not depend on the exact value. -/
def VCC_T_COOL_IN : ℚ := 303

/-- Result record of `calc_VCC`: the dict
`{'wdot_W': ..., 'q_cw_W': ...}` of the source. -/
structure ChillerOperation where
  wdot_W : ℚ
  q_cw_W : ℚ
deriving DecidableEq, Repr

/-- Shallow embedding of `calc_VCC(mdot_kgpers, T_sup_K, T_re_K)`:

```python
if mdot_kgpers == 0:
    wdot_W = 0
    q_cw_W = 0
else:
    q_chw_W = mdot_kgpers * HEAT_CAPACITY_OF_WATER_JPERKGK * (T_re_K - T_sup_K)
    T_cw_in_K = VCC_T_COOL_IN
    A = 0.0201E-3 * q_chw_W / T_cw_in_K
    B = T_re_K / T_cw_in_K
    C = 0.1980E3 * T_re_K / q_chw_W \
        + 168.1846E3 * (T_cw_in_K - T_re_K) / (T_cw_in_K * q_chw_W)
    COP = 1 / ((1 + C) / (B - A) - 1)
    wdot_W = q_chw_W / COP
    q_cw_W = wdot_W + q_chw_W
return \x7b'wdot_W': wdot_W, 'q_cw_W': q_cw_W\x7d
``` -/
def calc_VCC (mdot_kgpers T_sup_K T_re_K : ℚ) : ChillerOperation :=
  if mdot_kgpers = 0 then
    { wdot_W := 0, q_cw_W := 0 }
  else
    let q_chw_W := mdot_kgpers * HEAT_CAPACITY_OF_WATER_JPERKGK * (T_re_K - T_sup_K)
    let T_cw_in_K := VCC_T_COOL_IN
    let A := 0.0201e-3 * q_chw_W / T_cw_in_K
    let B := T_re_K / T_cw_in_K
    let C := 0.1980e3 * T_re_K / q_chw_W
      + 168.1846e3 * (T_cw_in_K - T_re_K) / (T_cw_in_K * q_chw_W)
    let COP := 1 / ((1 + C) / (B - A) - 1)
    let wdot_W := q_chw_W / COP
    { wdot_W := wdot_W, q_cw_W := wdot_W + q_chw_W }

/-- Helper: on the nonzero-flow branch the heat rejection is the power draw
plus the evaporator duty, by construction of the source. -/
lemma calc_VCC_q_cw_eq (m T_sup_K T_re_K : ℚ) (hm : m ≠ 0) :
    (calc_VCC m T_sup_K T_re_K).q_cw_W =
      (calc_VCC m T_sup_K T_re_K).wdot_W
        + m * HEAT_CAPACITY_OF_WATER_JPERKGK * (T_re_K - T_sup_K) := by
  unfold calc_VCC
  rw [if_neg hm]

/-- C1: for mass flow `m ≠ 0`, the returned power draw equals `Q / COP` with
`Q = m * c_p * (T_re - T_sup)`,
`COP = 1 / ((1+C)/(B-A) - 1)`,
`A = 0.0201E-3 * Q / T_cw_in`, `B = T_re / T_cw_in`,
`C = 0.1980E3 * T_re / Q + 168.1846E3 * (T_cw_in - T_re) / (T_cw_in * Q)`,
where `c_p` is the fixed specific heat of water and `T_cw_in` the fixed
condenser-water inlet constant (not derived from the inputs). -/
theorem calc_VCC_wdot_formula (m T_sup_K T_re_K : ℚ) (hm : m ≠ 0) :
    (calc_VCC m T_sup_K T_re_K).wdot_W =
      (m * HEAT_CAPACITY_OF_WATER_JPERKGK * (T_re_K - T_sup_K)) /
        (1 / ((1 +
            (0.1980e3 * T_re_K / (m * HEAT_CAPACITY_OF_WATER_JPERKGK * (T_re_K - T_sup_K))
              + 168.1846e3 * (VCC_T_COOL_IN - T_re_K) /
                  (VCC_T_COOL_IN * (m * HEAT_CAPACITY_OF_WATER_JPERKGK * (T_re_K - T_sup_K))))) /
          (T_re_K / VCC_T_COOL_IN
            - 0.0201e-3 * (m * HEAT_CAPACITY_OF_WATER_JPERKGK * (T_re_K - T_sup_K)) / VCC_T_COOL_IN)
          - 1)) := by
  unfold calc_VCC
  rw [if_neg hm]

/-- Witness for C1 at `m = 3`, `T_sup = 280`, `T_re = 290`. -/
theorem calc_VCC_wdot_formula_witness :
    (3 : ℚ) ≠ 0 ∧
    (calc_VCC 3 280 290).wdot_W =
      ((3 : ℚ) * HEAT_CAPACITY_OF_WATER_JPERKGK * (290 - 280)) /
        (1 / ((1 +
            (0.1980e3 * 290 / ((3 : ℚ) * HEAT_CAPACITY_OF_WATER_JPERKGK * (290 - 280))
              + 168.1846e3 * (VCC_T_COOL_IN - 290) /
                  (VCC_T_COOL_IN * ((3 : ℚ) * HEAT_CAPACITY_OF_WATER_JPERKGK * (290 - 280))))) /
          ((290 : ℚ) / VCC_T_COOL_IN
            - 0.0201e-3 * ((3 : ℚ) * HEAT_CAPACITY_OF_WATER_JPERKGK * (290 - 280)) / VCC_T_COOL_IN)
          - 1)) :=
  ⟨by norm_num, calc_VCC_wdot_formula 3 280 290 (by norm_num)⟩

/-- C2: for `m > 0` and `T_re > T_sup`, the returned heat-rejection rate
`q_cw_W` equals exactly the returned power draw `wdot_W` plus the evaporator
cooling duty `Q = m * c_p * (T_re - T_sup)` (energy-balance identity). -/
theorem calc_VCC_energy_balance (m T_sup_K T_re_K : ℚ)
    (hm : 0 < m) (hT : T_sup_K < T_re_K) :
    (calc_VCC m T_sup_K T_re_K).q_cw_W =
      (calc_VCC m T_sup_K T_re_K).wdot_W
        + m * HEAT_CAPACITY_OF_WATER_JPERKGK * (T_re_K - T_sup_K) :=
  calc_VCC_q_cw_eq m T_sup_K T_re_K (ne_of_gt hm)

/-- Witness for C2 at `m = 3`, `T_sup = 280`, `T_re = 290`. -/
theorem calc_VCC_energy_balance_witness :
    (0 : ℚ) < 3 ∧ (280 : ℚ) < 290 ∧
    (calc_VCC 3 280 290).q_cw_W =
      (calc_VCC 3 280 290).wdot_W
        + 3 * HEAT_CAPACITY_OF_WATER_JPERKGK * (290 - 280) :=
  ⟨by norm_num, by norm_num,
    calc_VCC_energy_balance 3 280 290 (by norm_num) (by norm_num)⟩

/-- C3: for every supply and return temperature, calling `calc_VCC` with mass
flow `m = 0` returns power draw 0 and heat rejection 0; the `m == 0` branch
performs no division at all. -/
theorem calc_VCC_zero_flow (T_sup_K T_re_K : ℚ) :
    calc_VCC 0 T_sup_K T_re_K = { wdot_W := 0, q_cw_W := 0 } := by
  unfold calc_VCC
  rw [if_pos rfl]

/-- Helper: strict monotonicity of `Q ↦ (a Q² + (1-β) Q + γ) / (β - a Q)` on
the interval where the denominator is positive, for `0 < a`, `0 < β < 1`,
`0 < γ`. -/
lemma ratFracStrictMono (a b g Q1 Q2 : ℚ)
    (ha : 0 < a) (hb0 : 0 < b) (hb1 : b < 1) (hg : 0 < g)
    (h1 : 0 < Q1) (h12 : Q1 < Q2) (h2 : a * Q2 < b) :
    (a * Q1 ^ 2 + (1 - b) * Q1 + g) / (b - a * Q1) <
      (a * Q2 ^ 2 + (1 - b) * Q2 + g) / (b - a * Q2) := by
  have haQ : a * Q1 < a * Q2 := by
    exact mul_lt_mul_of_pos_left h12 ha
  have hD2 : 0 < b - a * Q2 := by linarith
  have hD1 : 0 < b - a * Q1 := by linarith
  rw [div_lt_div_iff₀ hD1 hD2]
  have hkey : (a * Q1) * (a * Q2) < (a * Q1) * b :=
    mul_lt_mul_of_pos_left h2 (mul_pos ha h1)
  nlinarith [mul_pos (mul_pos ha hb0) (h1.trans h12),
    mul_pos hb0 (sub_pos.mpr hb1), mul_pos ha hg,
    mul_pos (sub_pos.mpr h12) (mul_pos (mul_pos ha hb0) (h1.trans h12)),
    mul_pos (sub_pos.mpr h12) (mul_pos hb0 (sub_pos.mpr hb1)),
    mul_pos (sub_pos.mpr h12) (mul_pos ha hg),
    mul_pos (sub_pos.mpr h12) (sub_pos.mpr hkey)]

/-- Helper: pure algebraic identity turning the source's COP expression for
the power draw into a single rational function of the duty `Q`. -/
lemma wdot_algebra (Q Tr Tcw : ℚ) (hQ : Q ≠ 0) (hTcw : Tcw ≠ 0)
    (hTD : Tr - 0.0201e-3 * Q ≠ 0) :
    Q * ((1 + (0.1980e3 * Tr / Q + 168.1846e3 * (Tcw - Tr) / (Tcw * Q))) /
         (Tr / Tcw - 0.0201e-3 * Q / Tcw) - 1)
    = ((0.0201e-3 / Tcw) * Q ^ 2 + (1 - Tr / Tcw) * Q
        + (0.1980e3 * Tr + 168.1846e3 * (Tcw - Tr) / Tcw)) /
      (Tr / Tcw - (0.0201e-3 / Tcw) * Q) := by
  have hD : Tr / Tcw - (0.0201e-3 / Tcw) * Q ≠ 0 := by
    have h1 : Tr / Tcw - (0.0201e-3 / Tcw) * Q = (Tr - 0.0201e-3 * Q) / Tcw := by
      ring
    rw [h1]
    exact div_ne_zero hTD hTcw
  have hD2 : Tr / Tcw - 0.0201e-3 * Q / Tcw ≠ 0 := by
    intro h
    apply hD
    rw [← h]
    ring
  field_simp
  ring

/-- Helper: closed rational-function form of the power draw on the nonzero
branch, valid whenever the evaporator duty `Q` and the COP denominator
`B - A` are nonzero. -/
lemma calc_VCC_wdot_ratForm (m T_sup_K T_re_K : ℚ) (hm : m ≠ 0)
    (hQ : m * HEAT_CAPACITY_OF_WATER_JPERKGK * (T_re_K - T_sup_K) ≠ 0)
    (hTD : T_re_K
        - 0.0201e-3 * (m * HEAT_CAPACITY_OF_WATER_JPERKGK * (T_re_K - T_sup_K)) ≠ 0) :
    (calc_VCC m T_sup_K T_re_K).wdot_W =
      ((0.0201e-3 / VCC_T_COOL_IN) * (m * HEAT_CAPACITY_OF_WATER_JPERKGK * (T_re_K - T_sup_K)) ^ 2
        + (1 - T_re_K / VCC_T_COOL_IN) * (m * HEAT_CAPACITY_OF_WATER_JPERKGK * (T_re_K - T_sup_K))
        + (0.1980e3 * T_re_K + 168.1846e3 * (VCC_T_COOL_IN - T_re_K) / VCC_T_COOL_IN)) /
      (T_re_K / VCC_T_COOL_IN
        - (0.0201e-3 / VCC_T_COOL_IN) * (m * HEAT_CAPACITY_OF_WATER_JPERKGK * (T_re_K - T_sup_K))) := by
  have hTcw : VCC_T_COOL_IN ≠ 0 := by norm_num [VCC_T_COOL_IN]
  unfold calc_VCC
  rw [if_neg hm]
  show (m * HEAT_CAPACITY_OF_WATER_JPERKGK * (T_re_K - T_sup_K)) /
      (1 / ((1 + (0.1980e3 * T_re_K / (m * HEAT_CAPACITY_OF_WATER_JPERKGK * (T_re_K - T_sup_K))
          + 168.1846e3 * (VCC_T_COOL_IN - T_re_K)
              / (VCC_T_COOL_IN * (m * HEAT_CAPACITY_OF_WATER_JPERKGK * (T_re_K - T_sup_K))))) /
        (T_re_K / VCC_T_COOL_IN
          - 0.0201e-3 * (m * HEAT_CAPACITY_OF_WATER_JPERKGK * (T_re_K - T_sup_K)) / VCC_T_COOL_IN)
        - 1)) = _
  rw [one_div, div_inv_eq_mul]
  exact wdot_algebra _ _ _ hQ hTcw hTD

/-- C4 (amended): with physically valid temperatures
`0 < T_sup < T_re < T_cw_in` and flows below the correlation's singularity
(the COP denominator `B - A` stays positive, i.e.
`0.0201E-3 * Q < T_re`), both outputs of `calc_VCC` are strictly increasing
in the mass flow rate. Beyond the singularity monotonicity fails
(see the counterexample). -/
theorem calc_VCC_strict_mono_preSingularity
    (m1 m2 T_sup_K T_re_K : ℚ)
    (hm1 : 0 < m1) (h12 : m1 < m2)
    (hTs : 0 < T_sup_K) (hT : T_sup_K < T_re_K) (hTr : T_re_K < VCC_T_COOL_IN)
    (hden : 0.0201e-3 * (m2 * HEAT_CAPACITY_OF_WATER_JPERKGK * (T_re_K - T_sup_K)) < T_re_K) :
    (calc_VCC m1 T_sup_K T_re_K).wdot_W < (calc_VCC m2 T_sup_K T_re_K).wdot_W ∧
    (calc_VCC m1 T_sup_K T_re_K).q_cw_W < (calc_VCC m2 T_sup_K T_re_K).q_cw_W := by
  have hcp : (0 : ℚ) < HEAT_CAPACITY_OF_WATER_JPERKGK := by
    norm_num [HEAT_CAPACITY_OF_WATER_JPERKGK]
  have hTcwpos : (0 : ℚ) < VCC_T_COOL_IN := by norm_num [VCC_T_COOL_IN]
  have hTrpos : (0 : ℚ) < T_re_K := hTs.trans hT
  have hQ1 : 0 < m1 * HEAT_CAPACITY_OF_WATER_JPERKGK * (T_re_K - T_sup_K) :=
    mul_pos (mul_pos hm1 hcp) (sub_pos.mpr hT)
  have hQ12 : m1 * HEAT_CAPACITY_OF_WATER_JPERKGK * (T_re_K - T_sup_K)
      < m2 * HEAT_CAPACITY_OF_WATER_JPERKGK * (T_re_K - T_sup_K) :=
    mul_lt_mul_of_pos_right (mul_lt_mul_of_pos_right h12 hcp) (sub_pos.mpr hT)
  have hTD2 : T_re_K
      - 0.0201e-3 * (m2 * HEAT_CAPACITY_OF_WATER_JPERKGK * (T_re_K - T_sup_K)) ≠ 0 :=
    ne_of_gt (by linarith)
  have hTD1 : T_re_K
      - 0.0201e-3 * (m1 * HEAT_CAPACITY_OF_WATER_JPERKGK * (T_re_K - T_sup_K)) ≠ 0 := by
    have : 0.0201e-3 * (m1 * HEAT_CAPACITY_OF_WATER_JPERKGK * (T_re_K - T_sup_K))
        < 0.0201e-3 * (m2 * HEAT_CAPACITY_OF_WATER_JPERKGK * (T_re_K - T_sup_K)) :=
      mul_lt_mul_of_pos_left hQ12 (by norm_num)
    exact ne_of_gt (by linarith)
  have hwdot : (calc_VCC m1 T_sup_K T_re_K).wdot_W < (calc_VCC m2 T_sup_K T_re_K).wdot_W := by
    rw [calc_VCC_wdot_ratForm m1 T_sup_K T_re_K (ne_of_gt hm1) (ne_of_gt hQ1) hTD1,
      calc_VCC_wdot_ratForm m2 T_sup_K T_re_K (ne_of_gt (hm1.trans h12))
        (ne_of_gt (hQ1.trans hQ12)) hTD2]
    apply ratFracStrictMono
    · exact div_pos (by norm_num) hTcwpos
    · exact div_pos hTrpos hTcwpos
    · exact (div_lt_one hTcwpos).mpr hTr
    · have hγ1 : (0 : ℚ) < 0.1980e3 * T_re_K := mul_pos (by norm_num) hTrpos
      have hγ2 : (0 : ℚ) < 168.1846e3 * (VCC_T_COOL_IN - T_re_K) / VCC_T_COOL_IN :=
        div_pos (mul_pos (by norm_num) (sub_pos.mpr hTr)) hTcwpos
      linarith
    · exact hQ1
    · exact hQ12
    · rw [div_mul_eq_mul_div]
      exact div_lt_div_of_pos_right hden hTcwpos
  refine ⟨hwdot, ?_⟩
  rw [calc_VCC_q_cw_eq m1 T_sup_K T_re_K (ne_of_gt hm1),
    calc_VCC_q_cw_eq m2 T_sup_K T_re_K (ne_of_gt (hm1.trans h12))]
  linarith

/-- Witness for the amended C4 at `m1 = 1`, `m2 = 2`, `T_sup = 280`,
`T_re = 286`. -/
theorem calc_VCC_strict_mono_preSingularity_witness :
    ((0 : ℚ) < 1 ∧ (1 : ℚ) < 2 ∧ (0 : ℚ) < 280 ∧ (280 : ℚ) < 286 ∧
      (286 : ℚ) < VCC_T_COOL_IN ∧
      0.0201e-3 * (2 * HEAT_CAPACITY_OF_WATER_JPERKGK * (286 - 280)) < 286) ∧
    (calc_VCC 1 280 286).wdot_W < (calc_VCC 2 280 286).wdot_W ∧
    (calc_VCC 1 280 286).q_cw_W < (calc_VCC 2 280 286).q_cw_W :=
  ⟨⟨by norm_num, by norm_num, by norm_num, by norm_num,
      by norm_num [VCC_T_COOL_IN],
      by norm_num [HEAT_CAPACITY_OF_WATER_JPERKGK]⟩,
    calc_VCC_strict_mono_preSingularity 1 2 280 286
      (by norm_num) (by norm_num) (by norm_num) (by norm_num)
      (by norm_num [VCC_T_COOL_IN])
      (by norm_num [HEAT_CAPACITY_OF_WATER_JPERKGK])⟩

/-- Counterexample to C4 as stated: at `T_sup = 280`, `T_re = 300`
(a physically valid pair with `T_re > T_sup`), raising the mass flow from
`100` to `200` kg/s crosses the singularity of the COP correlation and the
power draw strictly decreases (it becomes negative), so neither output is a
strictly increasing function of `m` over all `m > 0`. -/
theorem calc_VCC_not_monotone_counterexample :
    (100 : ℚ) < 200 ∧ (280 : ℚ) < 300 ∧
    (calc_VCC 200 280 300).wdot_W < (calc_VCC 100 280 300).wdot_W := by
  refine ⟨by norm_num, by norm_num, ?_⟩
  norm_num [calc_VCC, HEAT_CAPACITY_OF_WATER_JPERKGK, VCC_T_COOL_IN]

/-- A row of the "Chiller" sheet of the supply-systems cost table: columns
`code`, `cap_min`, `cap_max`, `a`, `b`, `c`, `d`, `e`, `IR_%`, `LT_yr`,
`O&M_%` (the percentage columns are stored as percentages, as in the file,
and divided by 100 at use sites, as in the source). -/
structure CostRow where
  code : String
  cap_min : ℚ
  cap_max : ℚ
  a : ℚ
  b : ℚ
  c : ℚ
  d : ℚ
  e : ℚ
  IR_pct : ℚ
  LT_yr : ℚ
  OM_pct : ℚ
deriving DecidableEq, Repr

/-- `list(set(VCC_cost_data['code']))` of the source: the de-duplicated list
of technology codes. Python's set-iteration order is unspecified; the model
fixes one representative order (keeping the last occurrence of each code);
only the length and membership of this list matter below. -/
def dedupCodes : List String → List String
  | [] => []
  | c :: cs => if c ∈ cs then dedupCodes cs else c :: dedupCodes cs

/-- The extrapolation guard of the source,
`if qcold_W < VCC_cost_data['cap_min'][0]: qcold_W = VCC_cost_data['cap_min'][0]`:
a capacity below the first row's `cap_min` is replaced by that value.
`capMin0` is the `cap_min` entry of the row with positional label 0. -/
def clampCapacity (capMin0 qcold_W : ℚ) : ℚ :=
  if qcold_W < capMin0 then capMin0 else qcold_W

/-- The bracket selection of the source,
`VCC_cost_data[(cap_min <= qcold_W) & (cap_max > qcold_W)]` followed by
`.iloc[0]`: the first row whose capacity bracket contains `qcold_W`
(lower-inclusive, upper-exclusive); `none` models the `IndexError` raised by
`.iloc[0]` on an empty selection. -/
def selectRow (table : List CostRow) (qcold_W : ℚ) : Option CostRow :=
  (table.filter fun r => decide (r.cap_min ≤ qcold_W ∧ r.cap_max > qcold_W)).head?

/-- The cost evaluation of the source at a selected row `r` and (clamped)
capacity `q`:

```python
InvC = Inv_a + Inv_b * qcold_W ** Inv_c + (Inv_d + Inv_e * qcold_W) * log(qcold_W)
Capex_a = InvC * Inv_IR * (1 + Inv_IR) ** Inv_LT / ((1 + Inv_IR) ** Inv_LT - 1)
Opex_fixed = Capex_a * Inv_OM
```

with `Inv_IR = r.IR_pct / 100` and `Inv_OM = r.OM_pct / 100`. Floating-point
exponentiation and `math.log` are embedded as real `rpow` and `Real.log`. -/
noncomputable def evalCost (r : CostRow) (q : ℚ) : ℝ × ℝ :=
  let Inv_IR : ℝ := (r.IR_pct : ℝ) / 100
  let Inv_LT : ℝ := (r.LT_yr : ℝ)
  let Inv_OM : ℝ := (r.OM_pct : ℝ) / 100
  let InvC : ℝ := (r.a : ℝ) + (r.b : ℝ) * (q : ℝ) ^ ((r.c : ℝ)) +
    ((r.d : ℝ) + (r.e : ℝ) * (q : ℝ)) * Real.log (q : ℝ)
  let Capex_a : ℝ := InvC * Inv_IR * (1 + Inv_IR) ^ Inv_LT / ((1 + Inv_IR) ^ Inv_LT - 1)
  (Capex_a, Capex_a * Inv_OM)

/-- The clamp / bracket-selection / cost-evaluation pipeline of the positive
branch of `calc_Cinv_VCC`, given the loaded table (`none` models the KeyError
on `['cap_min'][0]` for an empty frame and the IndexError of `.iloc[0]` on an
empty bracket selection). -/
noncomputable def costFromTable (table : List CostRow) (qcold_W : ℚ) :
    Option (ℝ × ℝ) :=
  match table.head? with
  | none => none
  | some row0 =>
    match selectRow table (clampCapacity row0.cap_min qcold_W) with
    | none => none
    | some r => some (evalCost r (clampCapacity row0.cap_min qcold_W))

/-- Shallow embedding of `calc_Cinv_VCC(qcold_W, locator, technology=1)`.
The external table read (`pd.read_excel(locator.get_supply_systems(...),
sheetname="Chiller")`) is abstracted as the `table` argument. Failure modes
of the source (IndexError on `technology_code[technology]`, KeyError on
`['cap_min'][0]` for an empty frame, IndexError on `.iloc[0]` for an empty
bracket selection) are modelled as `none`. Note that the source computes the
technology filter `VCC_cost_data[VCC_cost_data['code'] == technology_code[technology]]`
but discards its result (the expression statement is not assigned), so only
the index lookup `technology_code[technology]` is observable; the embedding
reproduces this faithfully. -/
noncomputable def calc_Cinv_VCC (qcold_W : ℚ) (table : List CostRow)
    (technology : ℕ) : Option (ℝ × ℝ) :=
  if 0 < qcold_W then
    match (dedupCodes (table.map fun r => r.code))[technology]? with
    | none => none
    | some _ => costFromTable table qcold_W
  else
    some (0, 0)

/-- The spec's notion of "the table's minimum supported capacity": the
smallest `cap_min` over the table's rows (0 for an empty table; only used on
nonempty tables). Stated from the spec's words, for comparison with the
source's clamping, which uses the first row's `cap_min`. -/
def tableMinCapacity : List CostRow → ℚ
  | [] => 0
  | [r] => r.cap_min
  | r :: rs => min r.cap_min (tableMinCapacity rs)

/-- The capacity value actually used by `calc_Cinv_VCC` for bracket selection
and cost evaluation (the source's possibly clamped `qcold_W`); `none` when
the table is empty. -/
def usedCapacity (table : List CostRow) (qcold_W : ℚ) : Option ℚ :=
  table.head?.map fun row0 => clampCapacity row0.cap_min qcold_W

/-- Helper: on a positive capacity, `calc_Cinv_VCC` is the technology-index
lookup followed by the table pipeline. -/
lemma calc_Cinv_VCC_pos (qcold_W : ℚ) (table : List CostRow) (technology : ℕ)
    (h0 : 0 < qcold_W) :
    calc_Cinv_VCC qcold_W table technology =
      match (dedupCodes (table.map fun r => r.code))[technology]? with
      | none => none
      | some _ => costFromTable table qcold_W := by
  unfold calc_Cinv_VCC
  rw [if_pos h0]

/-- Helper: the pipeline on a nonempty table, unfolded. -/
lemma costFromTable_cons (row0 : CostRow) (rs : List CostRow) (qcold_W : ℚ) :
    costFromTable (row0 :: rs) qcold_W =
      match selectRow (row0 :: rs) (clampCapacity row0.cap_min qcold_W) with
      | none => none
      | some r => some (evalCost r (clampCapacity row0.cap_min qcold_W)) :=
  rfl

/-- C5: for every peak capacity `Q_peak ≤ 0`, every cost table and every
technology index, `calc_Cinv_VCC` returns exactly `(0, 0)`; the table is
never consulted (the result is the same for all tables). -/
theorem calc_Cinv_VCC_nonpositive (qcold_W : ℚ) (table : List CostRow)
    (technology : ℕ) (h : qcold_W ≤ 0) :
    calc_Cinv_VCC qcold_W table technology = some (0, 0) := by
  unfold calc_Cinv_VCC
  rw [if_neg (not_lt.mpr h)]

/-- Witness for C5 at `Q_peak = 0` with the empty table. -/
theorem calc_Cinv_VCC_nonpositive_witness :
    (0 : ℚ) ≤ 0 ∧ calc_Cinv_VCC 0 [] 1 = some (0, 0) :=
  ⟨le_refl 0, calc_Cinv_VCC_nonpositive 0 [] 1 (le_refl 0)⟩

/-- C7: whenever the bracket selection of `calc_Cinv_VCC` returns a row, that
row's bracket contains the queried capacity with lower-inclusive,
upper-exclusive semantics (`cap_min ≤ q < cap_max`); in particular a `q`
exactly on a shared boundary can only be served by the row whose `cap_min`
equals `q`, never by the row whose `cap_max` equals `q`. -/
theorem selectRow_bracket (table : List CostRow) (qcold_W : ℚ) (r : CostRow)
    (h : selectRow table qcold_W = some r) :
    r.cap_min ≤ qcold_W ∧ qcold_W < r.cap_max := by
  unfold selectRow at h
  have hmem : r ∈ table.filter fun r => decide (r.cap_min ≤ qcold_W ∧ r.cap_max > qcold_W) := by
    cases hfl : table.filter fun r => decide (r.cap_min ≤ qcold_W ∧ r.cap_max > qcold_W) with
    | nil => rw [hfl] at h; simp at h
    | cons a l =>
      rw [hfl] at h
      simp only [List.head?_cons, Option.some.injEq] at h
      rw [← h]
      exact List.mem_cons_self a l
  have hp := List.of_mem_filter hmem
  exact of_decide_eq_true hp

/-- Witness for C7: a capacity exactly on the shared boundary `100` of the
brackets `[0, 100)` and `[100, 200)` selects the second row (the one with
`cap_min = 100`), and the theorem yields `100 ≤ 100 < 200`. -/
theorem selectRow_bracket_witness :
    selectRow [⟨"CH", 0, 100, 1, 1, 1, 1, 1, 5, 20, 3⟩,
        ⟨"CH", 100, 200, 2, 2, 2, 2, 2, 5, 20, 3⟩] 100 =
      some ⟨"CH", 100, 200, 2, 2, 2, 2, 2, 5, 20, 3⟩ ∧
    (CostRow.cap_min ⟨"CH", 100, 200, 2, 2, 2, 2, 2, 5, 20, 3⟩ ≤ 100 ∧
      (100 : ℚ) < CostRow.cap_max ⟨"CH", 100, 200, 2, 2, 2, 2, 2, 5, 20, 3⟩) :=
  ⟨by decide,
    selectRow_bracket
      [⟨"CH", 0, 100, 1, 1, 1, 1, 1, 5, 20, 3⟩,
        ⟨"CH", 100, 200, 2, 2, 2, 2, 2, 5, 20, 3⟩] 100
      ⟨"CH", 100, 200, 2, 2, 2, 2, 2, 5, 20, 3⟩ (by decide)⟩

/-- C6: for `Q_peak > 0`, when the technology index resolves and a bracket
row `r` is found for the (possibly clamped) capacity `q`,
`calc_Cinv_VCC` returns
`Capex_a = InvC * IR * (1+IR)^LT / ((1+IR)^LT - 1)` with
`InvC = a + b * q^c + (d + e*q) * ln q` evaluated at `q` and the selected
row's coefficients (`IR = IR_% / 100`), and `Opex_fixed = Capex_a * OM`
with `OM = O&M_% / 100`. -/
theorem calc_Cinv_VCC_cost_formula (qcold_W : ℚ) (table : List CostRow)
    (technology : ℕ) (c0 : String) (row0 r : CostRow)
    (h0 : 0 < qcold_W)
    (htech : (dedupCodes (table.map fun r => r.code))[technology]? = some c0)
    (hhead : table.head? = some row0)
    (hsel : selectRow table (clampCapacity row0.cap_min qcold_W) = some r) :
    calc_Cinv_VCC qcold_W table technology = some
      (((r.a : ℝ) + (r.b : ℝ) * ((clampCapacity row0.cap_min qcold_W : ℚ) : ℝ) ^ ((r.c : ℝ))
          + ((r.d : ℝ) + (r.e : ℝ) * ((clampCapacity row0.cap_min qcold_W : ℚ) : ℝ))
            * Real.log ((clampCapacity row0.cap_min qcold_W : ℚ) : ℝ))
          * ((r.IR_pct : ℝ) / 100) * (1 + (r.IR_pct : ℝ) / 100) ^ ((r.LT_yr : ℝ))
          / ((1 + (r.IR_pct : ℝ) / 100) ^ ((r.LT_yr : ℝ)) - 1),
        ((r.a : ℝ) + (r.b : ℝ) * ((clampCapacity row0.cap_min qcold_W : ℚ) : ℝ) ^ ((r.c : ℝ))
          + ((r.d : ℝ) + (r.e : ℝ) * ((clampCapacity row0.cap_min qcold_W : ℚ) : ℝ))
            * Real.log ((clampCapacity row0.cap_min qcold_W : ℚ) : ℝ))
          * ((r.IR_pct : ℝ) / 100) * (1 + (r.IR_pct : ℝ) / 100) ^ ((r.LT_yr : ℝ))
          / ((1 + (r.IR_pct : ℝ) / 100) ^ ((r.LT_yr : ℝ)) - 1)
          * ((r.OM_pct : ℝ) / 100)) := by
  rw [calc_Cinv_VCC_pos _ _ _ h0, htech]
  show costFromTable table qcold_W = _
  unfold costFromTable
  rw [hhead]
  show (match selectRow table (clampCapacity row0.cap_min qcold_W) with
    | none => none
    | some r => some (evalCost r (clampCapacity row0.cap_min qcold_W))) = _
  rw [hsel]
  rfl

/-- Row used by the C6 witness. -/
def chRowC6 : CostRow := ⟨"CH3", 1, 10, 1, 2, 3, 4, 5, 5, 20, 3⟩

/-- Witness for C6 at `Q_peak = 2` on a one-row table. -/
theorem calc_Cinv_VCC_cost_formula_witness :
    ((0 : ℚ) < 2 ∧
      (dedupCodes ([chRowC6].map fun r => r.code))[0]? = some "CH3" ∧
      [chRowC6].head? = some chRowC6 ∧
      selectRow [chRowC6] (clampCapacity chRowC6.cap_min 2) = some chRowC6) ∧
    calc_Cinv_VCC 2 [chRowC6] 0 = some
      (((chRowC6.a : ℝ)
          + (chRowC6.b : ℝ) * ((clampCapacity chRowC6.cap_min 2 : ℚ) : ℝ) ^ ((chRowC6.c : ℝ))
          + ((chRowC6.d : ℝ) + (chRowC6.e : ℝ) * ((clampCapacity chRowC6.cap_min 2 : ℚ) : ℝ))
            * Real.log ((clampCapacity chRowC6.cap_min 2 : ℚ) : ℝ))
          * ((chRowC6.IR_pct : ℝ) / 100)
          * (1 + (chRowC6.IR_pct : ℝ) / 100) ^ ((chRowC6.LT_yr : ℝ))
          / ((1 + (chRowC6.IR_pct : ℝ) / 100) ^ ((chRowC6.LT_yr : ℝ)) - 1),
        ((chRowC6.a : ℝ)
          + (chRowC6.b : ℝ) * ((clampCapacity chRowC6.cap_min 2 : ℚ) : ℝ) ^ ((chRowC6.c : ℝ))
          + ((chRowC6.d : ℝ) + (chRowC6.e : ℝ) * ((clampCapacity chRowC6.cap_min 2 : ℚ) : ℝ))
            * Real.log ((clampCapacity chRowC6.cap_min 2 : ℚ) : ℝ))
          * ((chRowC6.IR_pct : ℝ) / 100)
          * (1 + (chRowC6.IR_pct : ℝ) / 100) ^ ((chRowC6.LT_yr : ℝ))
          / ((1 + (chRowC6.IR_pct : ℝ) / 100) ^ ((chRowC6.LT_yr : ℝ)) - 1)
          * ((chRowC6.OM_pct : ℝ) / 100)) :=
  ⟨⟨by norm_num, by decide, by decide, by decide⟩,
    calc_Cinv_VCC_cost_formula 2 [chRowC6] 0 "CH3" chRowC6 chRowC6
      (by norm_num) (by decide) (by decide) (by decide)⟩

/-- Helper: the table minimum capacity is at most the first row's `cap_min`. -/
lemma tableMinCapacity_le_head (r0 : CostRow) (rs : List CostRow) :
    tableMinCapacity (r0 :: rs) ≤ r0.cap_min := by
  cases rs with
  | nil => exact le_refl _
  | cons a l => exact min_le_left _ _

/-- C8 (amended): the extrapolation guard clamps a positive undersized
capacity up to the FIRST row's `cap_min` (which is the table minimum only
when the first row carries the smallest `cap_min`); nevertheless, for every
`0 < Q_peak` strictly below the table minimum, the result of `calc_Cinv_VCC`
equals the result of calling it with the table minimum as input capacity. -/
theorem calc_Cinv_VCC_clamp_below_min (qcold_W : ℚ) (table : List CostRow)
    (technology : ℕ) (h0 : 0 < qcold_W)
    (hq : qcold_W < tableMinCapacity table) :
    calc_Cinv_VCC qcold_W table technology =
      calc_Cinv_VCC (tableMinCapacity table) table technology := by
  have h0' : 0 < tableMinCapacity table := h0.trans hq
  rw [calc_Cinv_VCC_pos qcold_W table technology h0,
    calc_Cinv_VCC_pos (tableMinCapacity table) table technology h0']
  cases table with
  | nil =>
    exfalso
    have hz : tableMinCapacity ([] : List CostRow) = 0 := rfl
    rw [hz] at hq
    exact absurd (h0.trans hq) (lt_irrefl 0)
  | cons r0 rs =>
    have hmin : tableMinCapacity (r0 :: rs) ≤ r0.cap_min := tableMinCapacity_le_head r0 rs
    have hclamp : clampCapacity r0.cap_min qcold_W
        = clampCapacity r0.cap_min (tableMinCapacity (r0 :: rs)) := by
      unfold clampCapacity
      rw [if_pos (lt_of_lt_of_le hq hmin)]
      by_cases hc : tableMinCapacity (r0 :: rs) < r0.cap_min
      · rw [if_pos hc]
      · rw [if_neg hc]
        exact le_antisymm (not_lt.mp hc) hmin
    cases hg : (dedupCodes ((r0 :: rs).map fun r => r.code))[technology]? with
    | none => rfl
    | some c =>
      show costFromTable (r0 :: rs) qcold_W
        = costFromTable (r0 :: rs) (tableMinCapacity (r0 :: rs))
      rw [costFromTable_cons r0 rs qcold_W,
        costFromTable_cons r0 rs (tableMinCapacity (r0 :: rs)), hclamp]

/-- Row used by the C8 witness. -/
def chRowC8 : CostRow := ⟨"CH", 50, 100, 1, 1, 1, 1, 1, 5, 20, 3⟩

/-- Witness for the amended C8 at `Q_peak = 30` on a one-row table with
minimum capacity 50. -/
theorem calc_Cinv_VCC_clamp_below_min_witness :
    ((0 : ℚ) < 30 ∧ (30 : ℚ) < tableMinCapacity [chRowC8]) ∧
    calc_Cinv_VCC 30 [chRowC8] 0 =
      calc_Cinv_VCC (tableMinCapacity [chRowC8]) [chRowC8] 0 :=
  ⟨⟨by norm_num, by decide⟩,
    calc_Cinv_VCC_clamp_below_min 30 [chRowC8] 0 (by norm_num) (by decide)⟩

/-- Table used by the C8 counterexample: the first row does NOT carry the
smallest `cap_min`. -/
def tableC8 : List CostRow :=
  [⟨"CHb", 100, 200, 2, 2, 2, 2, 2, 5, 20, 3⟩,
    ⟨"CHa", 50, 100, 1, 1, 1, 1, 1, 5, 20, 3⟩]

/-- Counterexample to C8 as stated: for `Q_peak = 30`, positive and strictly
below the table minimum 50, the capacity actually used by `calc_Cinv_VCC`
for bracket selection and cost evaluation is the first row's `cap_min`
(100), not the table minimum (50): the source does not clamp up to the
smallest `cap_min` over the table's rows. -/
theorem calc_Cinv_VCC_clamp_counterexample :
    (0 : ℚ) < 30 ∧ (30 : ℚ) < tableMinCapacity tableC8 ∧
    tableMinCapacity tableC8 = 50 ∧
    usedCapacity tableC8 30 = some 100 ∧ (100 : ℚ) ≠ 50 := by
  decide

/-- Rows used by the C9 analysis: two distinct technology codes with
disjoint capacity brackets. -/
def chRow1 : CostRow := ⟨"CH1", 50, 100, 1, 1, 1, 1, 1, 5, 20, 3⟩

/-- Second row for the C9 analysis. -/
def chRow2 : CostRow := ⟨"CH2", 100, 200, 2, 2, 2, 2, 2, 5, 20, 3⟩

/-- C9 is FALSE of the code (the source discards the technology filter):
on the two-technology table `[chRow1, chRow2]` with `technology = 1` the
selected technology code is `"CH2"`, yet for `Q_peak = 60` the bracket row
actually selected — and whose coefficients are returned — is the `"CH1"`
row, because the filter expression
`VCC_cost_data[VCC_cost_data['code'] == technology_code[technology]]` is
never assigned back. -/
theorem calc_Cinv_VCC_filter_discarded :
    (dedupCodes ([chRow1, chRow2].map fun r => r.code))[1]? = some "CH2" ∧
    chRow1.code = "CH1" ∧ "CH1" ≠ "CH2" ∧
    selectRow [chRow1, chRow2] (clampCapacity chRow1.cap_min 60) = some chRow1 ∧
    calc_Cinv_VCC 60 [chRow1, chRow2] 1 =
      some (evalCost chRow1 (clampCapacity chRow1.cap_min 60)) := by
  refine ⟨by decide, by decide, by decide, by decide, ?_⟩
  rw [calc_Cinv_VCC_pos 60 [chRow1, chRow2] 1 (by norm_num)]
  rw [show (dedupCodes ([chRow1, chRow2].map fun r => r.code))[1]? = some "CH2" from by decide]
  show costFromTable [chRow1, chRow2] 60 = _
  rw [costFromTable_cons chRow1 [chRow2] 60]
  rw [show selectRow [chRow1, chRow2] (clampCapacity chRow1.cap_min 60) = some chRow1 from by decide]

/-- C10 (implicit): for every positive `Q_peak` and fixed table contents,
the returned costs are identical for any two technology arguments that are
valid indices into the de-duplicated code list: the technology selector
never influences the returned costs (it can only change whether an index
error occurs). -/
theorem calc_Cinv_VCC_tech_independent (qcold_W : ℚ) (table : List CostRow)
    (t1 t2 : ℕ) (h0 : 0 < qcold_W)
    (h1 : t1 < (dedupCodes (table.map fun r => r.code)).length)
    (h2 : t2 < (dedupCodes (table.map fun r => r.code)).length) :
    calc_Cinv_VCC qcold_W table t1 = calc_Cinv_VCC qcold_W table t2 := by
  rw [calc_Cinv_VCC_pos qcold_W table t1 h0,
    calc_Cinv_VCC_pos qcold_W table t2 h0,
    List.getElem?_eq_getElem h1, List.getElem?_eq_getElem h2]

/-- Witness for C10 on the two-technology table with indices 0 and 1. -/
theorem calc_Cinv_VCC_tech_independent_witness :
    ((0 : ℚ) < 60 ∧
      0 < (dedupCodes ([chRow1, chRow2].map fun r => r.code)).length ∧
      1 < (dedupCodes ([chRow1, chRow2].map fun r => r.code)).length) ∧
    calc_Cinv_VCC 60 [chRow1, chRow2] 0 = calc_Cinv_VCC 60 [chRow1, chRow2] 1 :=
  ⟨⟨by norm_num, by decide, by decide⟩,
    calc_Cinv_VCC_tech_independent 60 [chRow1, chRow2] 0 1
      (by norm_num) (by decide) (by decide)⟩
